import Mathlib

/-!
Verification development for the chat-downloader live-chat streaming and
normalization engine (chzzk and soop site adapters).

The Python sources are shallowly embedded:
* Python values produced by JSON decoding are modelled by `PyValue`
  (`None`, `bool`, `int`, `float` as exact rationals, `str`, `list`, `dict`
  as an insertion-ordered association list).
* `orjson.loads` is modelled by `orjson_loads`, backed by a fueled
  recursive-descent JSON parser `jsonParse` (no `\u` escapes and no
  exponent forms; those corners are not exercised by any statement).
* Fallible Python operations (attribute errors on `.get` of non-dicts,
  type errors, JSON decode errors, key errors) return `Except PyErr`.
* Side effects (websocket sends, queue puts, log lines, thread joins)
  are made explicit as result lists / effect traces.
-/

inductive PyValue where
  | none
  | bool (b : Bool)
  | int (n : Int)
  | float (q : Rat)
  | str (s : String)
  | list (xs : List PyValue)
  | dict (fields : List (String × PyValue))

inductive PyErr where
  | jsonDecodeError
  | attributeError
  | typeError
  | keyError
deriving DecidableEq

/-- Python truthiness (`bool(x)`), restricted to JSON-decodable values. -/
def PyValue.truthy : PyValue → Bool
  | .none => false
  | .bool b => b
  | .int n => if n = 0 then false else true
  | .float q => if q = 0 then false else true
  | .str s => if s = "" then false else true
  | .list xs => !xs.isEmpty
  | .dict fs => !fs.isEmpty

/-- Python `a or b`: the left operand if truthy, otherwise the right. -/
def pyOr (a b : PyValue) : PyValue := if a.truthy then a else b

/-- Python `v == n` against an int literal (numeric cross-type equality:
`True == 1`, `30.0 == 30`). -/
def pyEqInt (v : PyValue) (n : Int) : Bool :=
  match v with
  | .int m => if m = n then true else false
  | .float q => if q = (n : Rat) then true else false
  | .bool b => if (if b then (1 : Int) else 0) = n then true else false
  | _ => false

/-- First-match lookup in an insertion-ordered dict. -/
def lookupF : List (String × PyValue) → String → Option PyValue
  | [], _ => Option.none
  | (k, v) :: fs, key => if k = key then some v else lookupF fs key

/-- Python `key in d`. -/
def hasKey (fs : List (String × PyValue)) (k : String) : Bool :=
  (lookupF fs k).isSome

/-- Python `d.get(key, default)` on a dict. -/
def pyGetD (fs : List (String × PyValue)) (k : String) (dflt : PyValue) : PyValue :=
  match lookupF fs k with
  | some v => v
  | Option.none => dflt

/-- Python `d.get(key)` on a dict (default `None`). -/
def chatGet (fs : List (String × PyValue)) (k : String) : PyValue :=
  pyGetD fs k .none

/-- Python `v.get(key, default)` on an arbitrary value: raises
`AttributeError` unless `v` is a dict. -/
def pyGetAttr (v : PyValue) (k : String) (dflt : PyValue) : Except PyErr PyValue :=
  match v with
  | .dict fs => .ok (pyGetD fs k dflt)
  | _ => .error .attributeError

/-- Python `v[key]`: `KeyError` when the key is missing, `TypeError` when
`v` is not a dict. -/
def pySubscr (v : PyValue) (k : String) : Except PyErr PyValue :=
  match v with
  | .dict fs =>
    match lookupF fs k with
    | some x => .ok x
    | Option.none => .error .keyError
  | _ => .error .typeError

/-- Python `str(v)`. The textual rendering of floats, lists and dicts is
abstracted by a deterministic placeholder; no proved statement depends on
those renderings. -/
def pyToStr : PyValue → String
  | .none => "None"
  | .bool b => if b then "True" else "False"
  | .int n => toString n
  | .float q => "float:" ++ toString q.num ++ "/" ++ toString q.den
  | .str s => s
  | .list _ => "list"
  | .dict _ => "dict"

/-- Python `v * 1000` (`TypeError` for non-sequence, non-numeric values). -/
def pyMul1000 : PyValue → Except PyErr PyValue
  | .int n => .ok (.int (n * 1000))
  | .bool b => .ok (.int (if b then 1000 else 0))
  | .float q => .ok (.float (q * 1000))
  | .str s => .ok (.str (String.join (List.replicate 1000 s)))
  | .list xs => .ok (.list (List.flatten (List.replicate 1000 xs)))
  | _ => .error .typeError

/-- Python `v / 1000` (true division; exact rational stands in for the
binary64 result — only presence, never rounding, is relied upon). -/
def pyDiv1000 : PyValue → Except PyErr PyValue
  | .int n => .ok (.float ((n : Rat) / 1000))
  | .bool b => .ok (.float ((if b then (1 : Rat) else 0) / 1000))
  | .float q => .ok (.float (q / 1000))
  | _ => .error .typeError

/-! ## A fueled JSON parser standing in for `orjson.loads` -/

def isWsChar (c : Char) : Bool :=
  c = ' ' || c = '\n' || c = '\t' || c = '\r'

def skipWs : List Char → List Char
  | [] => []
  | c :: cs => if isWsChar c then skipWs cs else c :: cs

def takeDigits : List Char → (List Char × List Char)
  | [] => ([], [])
  | c :: cs =>
    if c.isDigit then
      let p := takeDigits cs
      (c :: p.1, p.2)
    else ([], c :: cs)

def digitsToNat (ds : List Char) : Nat :=
  ds.foldl (fun acc c => acc * 10 + (c.toNat - 48)) 0

def unescapeChar (e : Char) : Option Char :=
  if e = 'n' then some '\n'
  else if e = 't' then some '\t'
  else if e = 'r' then some '\r'
  else if e = '"' ∨ e = '\\' ∨ e = '/' then some e
  else Option.none

def parseStringBody : Nat → List Char → Option (String × List Char)
  | 0, _ => Option.none
  | _, [] => Option.none
  | fuel + 1, c :: cs =>
    if c = '"' then some ("", cs)
    else if c = '\\' then
      match cs with
      | [] => Option.none
      | e :: cs' =>
        match unescapeChar e with
        | some ch =>
          (parseStringBody fuel cs').map (fun p => (String.mk (ch :: p.1.data), p.2))
        | Option.none => Option.none
    else
      (parseStringBody fuel cs).map (fun p => (String.mk (c :: p.1.data), p.2))

def parseNum (input : List Char) : Option (PyValue × List Char) :=
  let p := match input with
    | '-' :: r => (true, r)
    | r => (false, r)
  match takeDigits p.2 with
  | ([], _) => Option.none
  | (ds, rest2) =>
    let n : Int := Int.ofNat (digitsToNat ds)
    match rest2 with
    | '.' :: r3 =>
      match takeDigits r3 with
      | ([], _) => Option.none
      | (fs, rest4) =>
        let q : Rat := (n : Rat) + (digitsToNat fs : Rat) / ((10 : Rat) ^ fs.length)
        some (.float (if p.1 then -q else q), rest4)
    | _ => some (.int (if p.1 then -n else n), rest2)

mutual

def parseVal : Nat → List Char → Option (PyValue × List Char)
  | 0, _ => Option.none
  | fuel + 1, input =>
    match skipWs input with
    | [] => Option.none
    | c :: cs =>
      if c = 'n' then
        match cs with
        | 'u' :: 'l' :: 'l' :: r => some (.none, r)
        | _ => Option.none
      else if c = 't' then
        match cs with
        | 'r' :: 'u' :: 'e' :: r => some (.bool true, r)
        | _ => Option.none
      else if c = 'f' then
        match cs with
        | 'a' :: 'l' :: 's' :: 'e' :: r => some (.bool false, r)
        | _ => Option.none
      else if c = '"' then
        (parseStringBody fuel cs).map (fun p => (.str p.1, p.2))
      else if c = '[' then
        match skipWs cs with
        | ']' :: r => some (.list [], r)
        | cs' => (parseElems fuel cs').map (fun p => (.list p.1, p.2))
      else if c = '\x7b' then
        match skipWs cs with
        | '\x7d' :: r => some (.dict [], r)
        | cs' => (parseMembers fuel cs').map (fun p => (.dict p.1, p.2))
      else parseNum (c :: cs)

def parseElems : Nat → List Char → Option (List PyValue × List Char)
  | 0, _ => Option.none
  | fuel + 1, input =>
    match parseVal fuel input with
    | Option.none => Option.none
    | some (v, rest) =>
      match skipWs rest with
      | ',' :: r => (parseElems fuel r).map (fun p => (v :: p.1, p.2))
      | ']' :: r => some ([v], r)
      | _ => Option.none

def parseMembers : Nat → List Char → Option (List (String × PyValue) × List Char)
  | 0, _ => Option.none
  | fuel + 1, input =>
    match skipWs input with
    | '"' :: cs =>
      match parseStringBody fuel cs with
      | Option.none => Option.none
      | some (k, rest) =>
        match skipWs rest with
        | ':' :: r =>
          match parseVal fuel r with
          | Option.none => Option.none
          | some (v, rest2) =>
            match skipWs rest2 with
            | ',' :: r2 => (parseMembers fuel r2).map (fun p => ((k, v) :: p.1, p.2))
            | '\x7d' :: r2 => some ([(k, v)], r2)
            | _ => Option.none
        | _ => Option.none
    | _ => Option.none

end

/-- Parse a complete JSON document (with enough fuel for the whole input). -/
def jsonParse (s : String) : Option PyValue :=
  match parseVal (s.length + 1) s.data with
  | some (v, rest) => if (skipWs rest).isEmpty then some v else Option.none
  | Option.none => Option.none

/-- Models `orjson.loads`: decodes a `str` (or raises `JSONDecodeError`); any
non-string input also raises `JSONDecodeError` ("Input must be bytes,
bytearray, memoryview, or str"). -/
def orjson_loads : PyValue → Except PyErr PyValue
  | .str s =>
    match jsonParse s with
    | some v => .ok v
    | Option.none => .error .jsonDecodeError
  | _ => .error .jsonDecodeError

/-! ## chzzk `_parse_chat` -/

/-- Models `str(ChatType(code))` from `ChatType.__str__` (note: `VIDEO = 4` has no
branch in the source and renders as `unknown_message_4`). -/
def chatTypeStr (code : PyValue) : String :=
  if pyEqInt code 1 then "text_message"
  else if pyEqInt code 2 then "image_message"
  else if pyEqInt code 3 then "sticker_message"
  else if pyEqInt code 5 then "rich_message"
  else if pyEqInt code 10 then "donation_message"
  else if pyEqInt code 11 then "subscription_message"
  else if pyEqInt code 30 then "system_message"
  else if pyEqInt code 121 then "system_announce"
  else "unknown_message_" ++ pyToStr code

/-- Models `chat.get('messageTime') or chat.get('msgTime')`. -/
def resolveMessageTime (chat : List (String × PyValue)) : PyValue :=
  pyOr (chatGet chat "messageTime") (chatGet chat "msgTime")

/-- Models `chat.get('content') or chat.get('msg')`. -/
def resolveMessage (chat : List (String × PyValue)) : PyValue :=
  pyOr (chatGet chat "content") (chatGet chat "msg")

/-- Models `chat.get('messageTypeCode') or chat.get('msgTypeCode')`. -/
def resolveMessageType (chat : List (String × PyValue)) : PyValue :=
  pyOr (chatGet chat "messageTypeCode") (chatGet chat "msgTypeCode")

/-- Models `chat.get('userIdHash') or chat.get('uid') or chat.get('userId')`. -/
def resolveUserId (chat : List (String × PyValue)) : PyValue :=
  pyOr (pyOr (chatGet chat "userIdHash") (chatGet chat "uid")) (chatGet chat "userId")

/-- Models `chat.get('mbrCnt') or chat.get('memberCount')`. -/
def resolveMemberCount (chat : List (String × PyValue)) : PyValue :=
  pyOr (chatGet chat "mbrCnt") (chatGet chat "memberCount")

/-- Models `message_type in (ChatType.SYSTEM_MESSAGE, ChatType.SYSTEM_ANNOUNCE)`. -/
def isSystemType (v : PyValue) : Bool :=
  pyEqInt v 30 || pyEqInt v 121

/-- The profile block of `_parse_chat` as a function of the raw profile
value: computes `(display_name, subscription)` or raises. -/
def profileFromRaw (raw_profile : PyValue) : Except PyErr (PyValue × PyValue) :=
  if raw_profile.truthy = false then .ok (.str "", .none)
  else
    match orjson_loads raw_profile with
    | .error e => .error e
    | .ok (.dict pf) =>
      let streaming_property := pyOr (pyGetD pf "streamingProperty" .none) (.dict [])
      match pyGetAttr streaming_property "subscription" .none with
      | .error e => .error e
      | .ok subscription => .ok (pyGetD pf "nickname" (.str ""), subscription)
    | .ok _ => .ok (.str "", .none)

/-- The profile block of `_parse_chat`:
`raw_profile = chat.get('profile', '{}')` followed by `profileFromRaw`. -/
def profilePart (chat : List (String × PyValue)) : Except PyErr (PyValue × PyValue) :=
  profileFromRaw (pyGetD chat "profile" (.str "\x7b\x7d"))

/-- Models `extras = orjson.loads(chat.get('extras') or '{}')`. -/
def extrasPart (chat : List (String × PyValue)) : Except PyErr PyValue :=
  orjson_loads (pyOr (chatGet chat "extras") (.str "\x7b\x7d"))

/-- Assembly of the output `data` dict of `_parse_chat`, with the
conditionally added fields. -/
def assembleData (timestamp message_id message mtype author member_count
    extras emotes pay_amount : PyValue) (tis : Option PyValue) :
    List (String × PyValue) :=
  [("timestamp", timestamp), ("message_id", message_id), ("message", message),
   ("message_type", mtype), ("author", author)]
  ++ (match tis with
      | some v => [("time_in_seconds", v)]
      | Option.none => [])
  ++ (if member_count.truthy then [("member_count", member_count)] else [])
  ++ (if extras.truthy then [("extras", extras)] else [])
  ++ (if emotes.truthy then [("emotes", emotes)] else [])
  ++ (if pay_amount.truthy then [("pay_amount", pay_amount)] else [])

/-- Models `ChzzkChatDownloader._parse_chat`, as a value-level function returning
either the produced dict or the Python exception it raises. -/
def parse_chat (chat : List (String × PyValue)) : Except PyErr PyValue :=
  let message_time := resolveMessageTime chat
  if message_time.truthy = false then .ok (.dict [])
  else if isSystemType (resolveMessageType chat) then .ok (.dict [])
  else if hasKey chat "profile" = false ∧ hasKey chat "extras" = false then .ok (.dict [])
  else
    match profilePart chat with
    | .error e => .error e
    | .ok (display_name, subscription) =>
      match extrasPart chat with
      | .error e => .error e
      | .ok extras =>
        match pyGetAttr extras "emojis" .none with
        | .error e => .error e
        | .ok emotes =>
          match pyGetAttr extras "payAmount" .none with
          | .error e => .error e
          | .ok pay_amount =>
            match pyMul1000 message_time with
            | .error e => .error e
            | .ok timestamp =>
              let tis := chatGet chat "playerMessageTime"
              match (if tis.truthy then Except.map some (pyDiv1000 tis)
                     else .ok Option.none) with
              | .error e => .error e
              | .ok tisVal =>
                .ok (.dict (assembleData timestamp
                  (.str (pyToStr (resolveUserId chat) ++ "-" ++ pyToStr message_time))
                  (resolveMessage chat)
                  (.str (chatTypeStr (resolveMessageType chat)))
                  (.dict [("display_name", display_name), ("id", resolveUserId chat),
                          ("subscription", subscription)])
                  (resolveMemberCount chat) extras emotes pay_amount tisVal))

/-! ## Lookup and profile lemmas -/

theorem lookupF_append (l1 l2 : List (String × PyValue)) (k : String) :
    lookupF (l1 ++ l2) k =
      match lookupF l1 k with
      | some v => some v
      | Option.none => lookupF l2 k := by
  induction l1 with
  | nil => simp [lookupF]
  | cons p fs ih =>
    by_cases hk : p.1 = k
    · simp [lookupF, hk]
    · simp [lookupF, hk, ih]

theorem lookupF_ifSingle (c : Bool) (k1 k : String) (v : PyValue) (h : k1 ≠ k) :
    lookupF (if c then [(k1, v)] else []) k = Option.none := by
  cases c <;> simp [lookupF, h]

theorem lookupF_tisOpt (tv : Option PyValue) (k : String)
    (h : "time_in_seconds" ≠ k) :
    lookupF (match tv with
             | some v => [("time_in_seconds", v)]
             | Option.none => []) k = Option.none := by
  cases tv <;> simp [lookupF, h]

theorem assembleData_author (ts mid msg mt au mc ex em pay : PyValue)
    (tv : Option PyValue) :
    lookupF (assembleData ts mid msg mt au mc ex em pay tv) "author" = some au := by
  simp [assembleData, lookupF]

theorem assembleData_message_id (ts mid msg mt au mc ex em pay : PyValue)
    (tv : Option PyValue) :
    lookupF (assembleData ts mid msg mt au mc ex em pay tv) "message_id" = some mid := by
  simp [assembleData, lookupF]

theorem assembleData_tis_none (ts mid msg mt au mc ex em pay : PyValue) :
    lookupF (assembleData ts mid msg mt au mc ex em pay Option.none)
      "time_in_seconds" = Option.none := by
  simp [assembleData, lookupF_append, lookupF, lookupF_ifSingle]

theorem assembleData_mc_falsy (ts mid msg mt au mc ex em pay : PyValue)
    (tv : Option PyValue) (h : mc.truthy = false) :
    lookupF (assembleData ts mid msg mt au mc ex em pay tv)
      "member_count" = Option.none := by
  simp [assembleData, lookupF_append, lookupF, lookupF_ifSingle, lookupF_tisOpt, h]

theorem assembleData_pay_falsy (ts mid msg mt au mc ex em pay : PyValue)
    (tv : Option PyValue) (h : pay.truthy = false) :
    lookupF (assembleData ts mid msg mt au mc ex em pay tv)
      "pay_amount" = Option.none := by
  simp [assembleData, lookupF_append, lookupF, lookupF_ifSingle, lookupF_tisOpt, h]

theorem profileFromRaw_none :
    profileFromRaw PyValue.none = .ok (.str "", .none) := rfl

theorem profileFromRaw_null_str :
    profileFromRaw (.str "null") = .ok (.str "", .none) := rfl

theorem profileFromRaw_default :
    profileFromRaw (.str "\x7b\x7d") = .ok (.str "", .none) := rfl

theorem profilePart_of_absent (chat : List (String × PyValue))
    (h : lookupF chat "profile" = Option.none) :
    profilePart chat = .ok (.str "", .none) := by
  simp [profilePart, pyGetD, h, profileFromRaw_default]

theorem profilePart_of_val (chat : List (String × PyValue)) (v : PyValue)
    (h : lookupF chat "profile" = some v) :
    profilePart chat = profileFromRaw v := by
  simp [profilePart, pyGetD, h]

theorem profileFromRaw_obj_eq (s : String) (pf : List (String × PyValue))
    (hs : jsonParse s = some (.dict pf)) (hse : s ≠ "") :
    profileFromRaw (.str s) =
      match pyGetAttr (pyOr (pyGetD pf "streamingProperty" PyValue.none)
          (.dict [])) "subscription" PyValue.none with
      | .error e => .error e
      | .ok subscription => .ok (pyGetD pf "nickname" (.str ""), subscription) := by
  simp only [profileFromRaw, PyValue.truthy, orjson_loads, hs]
  simp [hse]

theorem profileFromRaw_obj (s : String) (pf : List (String × PyValue))
    (hs : jsonParse s = some (.dict pf))
    (hsp : pyGetD pf "streamingProperty" PyValue.none = PyValue.none ∨
           ∃ sp, pyGetD pf "streamingProperty" PyValue.none = PyValue.dict sp) :
    ∃ dn sub, profileFromRaw (.str s) = .ok (dn, sub) := by
  by_cases hse : s = ""
  · rw [hse] at hs
    exact absurd hs (by simp [jsonParse, parseVal, skipWs])
  · rw [profileFromRaw_obj_eq s pf hs hse]
    rcases hsp with hnone | ⟨sp, hsp⟩
    · rw [hnone]
      exact ⟨_, _, rfl⟩
    · rw [hsp]
      cases sp with
      | nil => exact ⟨_, _, rfl⟩
      | cons p ps =>
        simp only [pyOr, PyValue.truthy, List.isEmpty_cons, Bool.not_false, if_true]
        simp only [pyGetAttr]
        exact ⟨_, _, rfl⟩

theorem extrasPart_of_none (chat : List (String × PyValue))
    (h : chatGet chat "extras" = PyValue.none) :
    extrasPart chat = .ok (.dict []) := by
  unfold extrasPart
  rw [h]
  rfl

theorem parse_chat_eq_of_parts (chat : List (String × PyValue)) (t : Int)
    (dn sub exv em pay : PyValue) (tv : Option PyValue)
    (hmt : resolveMessageTime chat = .int t) (ht : t ≠ 0)
    (hst : isSystemType (resolveMessageType chat) = false)
    (hkey : hasKey chat "profile" = true ∨ hasKey chat "extras" = true)
    (hprof : profilePart chat = .ok (dn, sub))
    (hex : extrasPart chat = .ok exv)
    (hem : pyGetAttr exv "emojis" .none = .ok em)
    (hpay : pyGetAttr exv "payAmount" .none = .ok pay)
    (htis : (if (chatGet chat "playerMessageTime").truthy
             then Except.map some (pyDiv1000 (chatGet chat "playerMessageTime"))
             else Except.ok Option.none) = Except.ok tv) :
    parse_chat chat = .ok (.dict (assembleData (.int (t * 1000))
      (.str (pyToStr (resolveUserId chat) ++ "-" ++ pyToStr (.int t)))
      (resolveMessage chat) (.str (chatTypeStr (resolveMessageType chat)))
      (.dict [("display_name", dn), ("id", resolveUserId chat),
              ("subscription", sub)])
      (resolveMemberCount chat) exv em pay tv)) := by
  have htr : (PyValue.int t).truthy = true := by simp [PyValue.truthy, ht]
  have hkey' : ¬ (hasKey chat "profile" = false ∧ hasKey chat "extras" = false) := by
    rcases hkey with h | h <;> simp [h]
  simp only [parse_chat, hmt, htr, hst, hkey', hprof, hex, hem, hpay, htis,
    pyMul1000, Bool.true_eq_false, if_false, Bool.false_eq_true]

theorem profilePart_null_equiv (chat : List (String × PyValue))
    (hp : hasKey chat "profile" = false ∨ chatGet chat "profile" = PyValue.none ∨
          chatGet chat "profile" = PyValue.str "null") :
    profilePart chat = .ok (.str "", .none) := by
  rcases hp with h | h | h
  · cases hv : lookupF chat "profile" with
    | none => exact profilePart_of_absent chat hv
    | some v => simp [hasKey, hv] at h
  · cases hv : lookupF chat "profile" with
    | none => exact profilePart_of_absent chat hv
    | some v =>
      have hveq : v = PyValue.none := by
        simp only [chatGet, pyGetD, hv] at h
        exact h
      rw [profilePart_of_val chat v hv, hveq]
      exact profileFromRaw_none
  · cases hv : lookupF chat "profile" with
    | none =>
      simp only [chatGet, pyGetD, hv] at h
      exact PyValue.noConfusion h
    | some v =>
      have hveq : v = PyValue.str "null" := by
        simp only [chatGet, pyGetD, hv] at h
        exact h
      rw [profilePart_of_val chat v hv, hveq]
      exact profileFromRaw_null_str

theorem tis_branch_ok (chat : List (String × PyValue))
    (hpt : chatGet chat "playerMessageTime" = PyValue.none ∨
           ∃ k : Int, chatGet chat "playerMessageTime" = PyValue.int k) :
    ∃ tv, (if (chatGet chat "playerMessageTime").truthy
           then Except.map some (pyDiv1000 (chatGet chat "playerMessageTime"))
           else Except.ok Option.none) = Except.ok tv := by
  rcases hpt with h | ⟨k, h⟩
  · rw [h]
    exact ⟨Option.none, by simp [PyValue.truthy]⟩
  · rw [h]
    by_cases hk : k = 0
    · subst hk
      exact ⟨Option.none, by simp [PyValue.truthy]⟩
    · exact ⟨some (.float ((k : Rat) / 1000)),
        by simp [PyValue.truthy, hk, pyDiv1000, Except.map]⟩

/-- C1 counterexample: a record whose `extras` sub-payload is the literal
JSON string `"null"` makes `_parse_chat` raise an `AttributeError`
(`orjson.loads('null')` is `None` and `None.get` fails), so the claimed
no-raise guarantee for the extras sub-payload is false. -/
theorem parse_chat_extras_null_string_raises :
    parse_chat [("msgTime", PyValue.int 1), ("extras", PyValue.str "null")] =
      Except.error PyErr.attributeError := rfl

/-- C1 (amended): for a raw chat record with a nonzero integer message time,
a non-system type code, a numeric-or-absent `playerMessageTime`, and an
`extras` sub-payload that is present but `None`, `_parse_chat` does not
raise when the `profile` sub-payload is absent, `None`, the literal string
`"null"`, or a JSON-encoded object string whose `streamingProperty` is
absent/null or an object; in the null-equivalent profile cases the author
of the produced record has `display_name = ''` and `subscription = None`.
(The same tolerance does not extend to the `extras` sub-payload: the
literal string `"null"` or already-structured data there raises, see the
counterexample.) -/
theorem parse_chat_profile_null_tolerance (chat : List (String × PyValue)) (t : Int)
    (hmt : resolveMessageTime chat = .int t) (ht : t ≠ 0)
    (hst : isSystemType (resolveMessageType chat) = false)
    (hek : hasKey chat "extras" = true)
    (hev : chatGet chat "extras" = PyValue.none)
    (hpt : chatGet chat "playerMessageTime" = PyValue.none ∨
           ∃ k : Int, chatGet chat "playerMessageTime" = PyValue.int k) :
    ((hasKey chat "profile" = false ∨ chatGet chat "profile" = PyValue.none ∨
      chatGet chat "profile" = PyValue.str "null") →
      ∃ d, parse_chat chat = Except.ok (PyValue.dict d) ∧
        lookupF d "author" = some (PyValue.dict
          [("display_name", PyValue.str ""), ("id", resolveUserId chat),
           ("subscription", PyValue.none)])) ∧
    (∀ s pf, chatGet chat "profile" = PyValue.str s →
      jsonParse s = some (PyValue.dict pf) →
      (pyGetD pf "streamingProperty" PyValue.none = PyValue.none ∨
       ∃ sp, pyGetD pf "streamingProperty" PyValue.none = PyValue.dict sp) →
      ∃ d, parse_chat chat = Except.ok (PyValue.dict d)) := by
  obtain ⟨tv, htis⟩ := tis_branch_ok chat hpt
  constructor
  · intro hp
    have hprof := profilePart_null_equiv chat hp
    refine ⟨_, parse_chat_eq_of_parts chat t (.str "") PyValue.none (.dict [])
      PyValue.none PyValue.none tv hmt ht hst (Or.inr hek) hprof
      (extrasPart_of_none chat hev) rfl rfl htis, ?_⟩
    exact assembleData_author _ _ _ _ _ _ _ _ _ _
  · intro s pf hps hpf hsp
    cases hv : lookupF chat "profile" with
    | none =>
      simp only [chatGet, pyGetD, hv] at hps
      exact PyValue.noConfusion hps
    | some v =>
      have hvs : v = PyValue.str s := by
        simp only [chatGet, pyGetD, hv] at hps
        exact hps
      obtain ⟨dn, sub, hfr⟩ := profileFromRaw_obj s pf hpf hsp
      have hprof : profilePart chat = .ok (dn, sub) := by
        rw [profilePart_of_val chat v hv, hvs, hfr]
      exact ⟨_, parse_chat_eq_of_parts chat t dn sub (.dict []) PyValue.none
        PyValue.none tv hmt ht hst (Or.inr hek) hprof
        (extrasPart_of_none chat hev) rfl rfl htis⟩

/-- C1 witness: the amended theorem applied to a concrete record whose
profile is the literal string `"null"` and whose extras is `None`. -/
theorem parse_chat_profile_null_tolerance_witness :
    ∃ d, parse_chat [("msgTime", PyValue.int 5), ("profile", PyValue.str "null"),
        ("extras", PyValue.none)] = Except.ok (PyValue.dict d) ∧
      lookupF d "author" = some (PyValue.dict
        [("display_name", PyValue.str ""), ("id", PyValue.none),
         ("subscription", PyValue.none)]) := by
  have h := (parse_chat_profile_null_tolerance
      [("msgTime", PyValue.int 5), ("profile", PyValue.str "null"),
       ("extras", PyValue.none)] 5 rfl (by decide) rfl rfl rfl (Or.inl rfl)).1
      (Or.inr (Or.inr rfl))
  exact h

theorem parse_chat_inversion (chat : List (String × PyValue))
    (d : List (String × PyValue))
    (h : parse_chat chat = Except.ok (PyValue.dict d)) :
    d = [] ∨ ∃ dn sub exv em pay tv ts,
      profilePart chat = Except.ok (dn, sub) ∧
      extrasPart chat = Except.ok exv ∧
      pyGetAttr exv "emojis" PyValue.none = Except.ok em ∧
      pyGetAttr exv "payAmount" PyValue.none = Except.ok pay ∧
      pyMul1000 (resolveMessageTime chat) = Except.ok ts ∧
      (if (chatGet chat "playerMessageTime").truthy
         then Except.map some (pyDiv1000 (chatGet chat "playerMessageTime"))
         else Except.ok Option.none) = Except.ok tv ∧
      d = assembleData ts
        (.str (pyToStr (resolveUserId chat) ++ "-" ++ pyToStr (resolveMessageTime chat)))
        (resolveMessage chat) (.str (chatTypeStr (resolveMessageType chat)))
        (.dict [("display_name", dn), ("id", resolveUserId chat),
                ("subscription", sub)])
        (resolveMemberCount chat) exv em pay tv := by
  simp only [parse_chat] at h
  split at h
  · left
    simp only [Except.ok.injEq, PyValue.dict.injEq] at h
    exact h.symm
  · split at h
    · left
      simp only [Except.ok.injEq, PyValue.dict.injEq] at h
      exact h.symm
    · split at h
      · left
        simp only [Except.ok.injEq, PyValue.dict.injEq] at h
        exact h.symm
      · split at h
        · exact Except.noConfusion h
        · rename_i dn sub hprof
          split at h
          · exact Except.noConfusion h
          · rename_i exv hex
            split at h
            · exact Except.noConfusion h
            · rename_i em hem
              split at h
              · exact Except.noConfusion h
              · rename_i pay hpay
                split at h
                · exact Except.noConfusion h
                · rename_i ts hts
                  split at h
                  · exact Except.noConfusion h
                  · rename_i tv htis
                    right
                    refine ⟨dn, sub, exv, em, pay, tv, ts, hprof, hex, hem, hpay,
                      hts, htis, ?_⟩
                    simp only [Except.ok.injEq, PyValue.dict.injEq] at h
                    exact h.symm

/-- C10: in `_parse_chat`, a numeric zero is indistinguishable from an
absent field: a resolved message time of `0` makes the record be dropped
(the empty record is returned), and resolved zeros for
`playerMessageTime`, member count, and `payAmount` make `time_in_seconds`,
`member_count`, and `pay_amount` be omitted from the produced record,
because presence is tested by truthiness. -/
theorem parse_chat_zero_truthiness (chat d : List (String × PyValue)) :
    (resolveMessageTime chat = PyValue.int 0 →
      parse_chat chat = Except.ok (PyValue.dict [])) ∧
    (parse_chat chat = Except.ok (PyValue.dict d) →
      (chatGet chat "playerMessageTime" = PyValue.int 0 →
        lookupF d "time_in_seconds" = Option.none) ∧
      (resolveMemberCount chat = PyValue.int 0 →
        lookupF d "member_count" = Option.none) ∧
      (∀ exd, extrasPart chat = Except.ok (PyValue.dict exd) →
        pyGetD exd "payAmount" PyValue.none = PyValue.int 0 →
        lookupF d "pay_amount" = Option.none)) := by
  constructor
  · intro h0
    simp only [parse_chat, h0]
    simp [PyValue.truthy]
  · intro h
    rcases parse_chat_inversion chat d h with hd |
      ⟨dn, sub, exv, em, pay, tv, ts, hprof, hex, hem, hpay, hts, htis, hdd⟩
    · subst hd
      exact ⟨fun _ => rfl, fun _ => rfl, fun _ _ _ => rfl⟩
    · subst hdd
      refine ⟨?_, ?_, ?_⟩
      · intro h0
        rw [h0] at htis
        cases tv with
        | none => exact assembleData_tis_none _ _ _ _ _ _ _ _ _
        | some v =>
          exfalso
          simp [PyValue.truthy] at htis
      · intro h0
        exact assembleData_mc_falsy _ _ _ _ _ _ _ _ _ _
          (by rw [h0]; simp [PyValue.truthy])
      · intro exd hexd hpay0
        have hexv : exv = PyValue.dict exd := by
          rw [hex] at hexd
          injection hexd
        subst hexv
        have hpv : pay = PyValue.int 0 := by
          simp only [pyGetAttr, Except.ok.injEq] at hpay
          rw [hpay0] at hpay
          exact hpay.symm
        subst hpv
        exact assembleData_pay_falsy _ _ _ _ _ _ _ _ _ _
          (by simp [PyValue.truthy])

/-- C10 witness: a concrete record with `msgTime = 0` is dropped, and a
concrete record with zero `playerMessageTime`, zero `mbrCnt` and zero
`payAmount` omits the three optional fields. -/
theorem parse_chat_zero_truthiness_witness :
    parse_chat [("msgTime", PyValue.int 0), ("extras", PyValue.none)] =
      Except.ok (PyValue.dict []) ∧
    (lookupF [("timestamp", PyValue.int 4000), ("message_id", PyValue.str "None-4"),
        ("message", PyValue.none), ("message_type", PyValue.str "unknown_message_None"),
        ("author", PyValue.dict [("display_name", PyValue.str ""), ("id", PyValue.none),
          ("subscription", PyValue.none)]),
        ("extras", PyValue.dict [("payAmount", PyValue.int 0)])]
      "time_in_seconds" = Option.none ∧
     lookupF [("timestamp", PyValue.int 4000), ("message_id", PyValue.str "None-4"),
        ("message", PyValue.none), ("message_type", PyValue.str "unknown_message_None"),
        ("author", PyValue.dict [("display_name", PyValue.str ""), ("id", PyValue.none),
          ("subscription", PyValue.none)]),
        ("extras", PyValue.dict [("payAmount", PyValue.int 0)])]
      "member_count" = Option.none ∧
     lookupF [("timestamp", PyValue.int 4000), ("message_id", PyValue.str "None-4"),
        ("message", PyValue.none), ("message_type", PyValue.str "unknown_message_None"),
        ("author", PyValue.dict [("display_name", PyValue.str ""), ("id", PyValue.none),
          ("subscription", PyValue.none)]),
        ("extras", PyValue.dict [("payAmount", PyValue.int 0)])]
      "pay_amount" = Option.none) := by
  constructor
  · exact (parse_chat_zero_truthiness
      [("msgTime", PyValue.int 0), ("extras", PyValue.none)] []).1 rfl
  · have h := (parse_chat_zero_truthiness
      [("msgTime", PyValue.int 4), ("memberCount", PyValue.int 0),
       ("playerMessageTime", PyValue.int 0),
       ("extras", PyValue.str "\x7b\"payAmount\": 0\x7d")]
      [("timestamp", PyValue.int 4000), ("message_id", PyValue.str "None-4"),
       ("message", PyValue.none), ("message_type", PyValue.str "unknown_message_None"),
       ("author", PyValue.dict [("display_name", PyValue.str ""), ("id", PyValue.none),
         ("subscription", PyValue.none)]),
       ("extras", PyValue.dict [("payAmount", PyValue.int 0)])]).2 rfl
    exact ⟨h.1 rfl, h.2.1 rfl, h.2.2 [("payAmount", PyValue.int 0)] rfl rfl⟩

/-! ## soop `_chat_callback` -/

/-- One `afreeca.Chat` event as consumed by `SoopChatDownloader._chat_callback`
(the fields the callback reads). -/
structure AfreecaChat where
  sender_id : String
  nickname : String
  message : String
  flags : List String
  subscription_month : PyValue

/-- Models `SoopChatDownloader._chat_callback`.  The Python code stamps
`timestamp = int(datetime.now(timezone.utc).timestamp() * 1e6)`; the
wall-clock reading (in microseconds) is made an explicit argument
`now_us`. -/
def soop_chat_callback (now_us : Int) (chat : AfreecaChat) : PyValue :=
  PyValue.dict
    [("message_id", .str (chat.sender_id ++ "-" ++ toString now_us)),
     ("timestamp", .int now_us),
     ("message", .str chat.message),
     ("flag", .str (String.intercalate "," chat.flags)),
     ("author", .dict ([("id", .str chat.sender_id),
        ("display_name", .str chat.nickname)]
        ++ (if chat.subscription_month.truthy
            then [("subscription_month", chat.subscription_month)] else [])))]

/-- C3 counterexample: the soop `_chat_callback` normalizer is not
deterministic in the raw record — two invocations on the same record at
different wall-clock readings produce different records (different
`timestamp` and `message_id`), so normalizing the same raw payload twice
is not bit-identical and `message_id` is not stable across re-parsing. -/
theorem soop_callback_not_idempotent :
    soop_chat_callback 1 ⟨"u", "n", "m", [], PyValue.none⟩ ≠
      soop_chat_callback 2 ⟨"u", "n", "m", [], PyValue.none⟩ := by
  intro h
  simp [soop_chat_callback] at h

/-- C3 (amended): the chzzk normalizer `_parse_chat` is a pure function of
the raw record — its `message_id` is exactly
`f'{user_id}-{message_time}'` for every nonempty record it produces, so
re-parsing the same raw payload reproduces it bit-identically; the soop
`_chat_callback`, by contrast, derives `timestamp` (and hence
`message_id`) from the wall clock at callback time, so its output
determines the clock reading — two normalizations agree only when their
clock readings coincide. -/
theorem parse_chat_message_id_stable (chat d : List (String × PyValue))
    (h : parse_chat chat = Except.ok (PyValue.dict d)) (hne : d ≠ []) :
    lookupF d "message_id" = some (.str (pyToStr (resolveUserId chat) ++ "-" ++
      pyToStr (resolveMessageTime chat))) ∧
    (∀ t1 t2 c, soop_chat_callback t1 c = soop_chat_callback t2 c → t1 = t2) := by
  constructor
  · rcases parse_chat_inversion chat d h with hd |
      ⟨dn, sub, exv, em, pay, tv, ts, hprof, hex, hem, hpay, hts, htis, hdd⟩
    · exact absurd hd hne
    · subst hdd
      exact assembleData_message_id _ _ _ _ _ _ _ _ _ _
  · intro t1 t2 c hc
    have := congrArg (fun v =>
      match v with
      | PyValue.dict l => lookupF l "timestamp"
      | _ => Option.none) hc
    simp [soop_chat_callback, lookupF] at this
    exact this

/-- C3 witness: the stable-`message_id` theorem applied to a concrete
chzzk record. -/
theorem parse_chat_message_id_stable_witness :
    lookupF [("timestamp", PyValue.int 7000), ("message_id", PyValue.str "u1-7"),
      ("message", PyValue.none), ("message_type", PyValue.str "unknown_message_None"),
      ("author", PyValue.dict [("display_name", PyValue.str ""),
        ("id", PyValue.str "u1"), ("subscription", PyValue.none)])]
      "message_id" = some (PyValue.str "u1-7") := by
  exact (parse_chat_message_id_stable
    [("msgTime", PyValue.int 7), ("userIdHash", PyValue.str "u1"),
     ("extras", PyValue.str "\x7b\x7d")]
    [("timestamp", PyValue.int 7000), ("message_id", PyValue.str "u1-7"),
     ("message", PyValue.none), ("message_type", PyValue.str "unknown_message_None"),
     ("author", PyValue.dict [("display_name", PyValue.str ""),
       ("id", PyValue.str "u1"), ("subscription", PyValue.none)])]
    rfl (by simp)).1

/-! ## chzzk `on_message` -/

namespace ChatCommands

def PING : Int := 0

def PONG : Int := 10000

def CONNECT : Int := 100

def CONNECTED : Int := 10100

def REQUEST_RECENT_CHAT : Int := 5101

end ChatCommands

/-- Models `_parse_chat` applied to one element of a frame batch; a non-dict
element makes the `.get` calls raise `AttributeError`. -/
def parse_chat_v (v : PyValue) : Except PyErr PyValue :=
  match v with
  | .dict fs => parse_chat fs
  | _ => .error .attributeError

/-- Python iteration `for x in v`: lists yield elements, strings yield
one-character strings, dicts yield their keys; other values raise. -/
def pyIter : PyValue → Except PyErr (List PyValue)
  | .list xs => .ok xs
  | .str s => .ok (s.data.map (fun c => .str (String.mk [c])))
  | .dict fs => .ok (fs.map (fun p => .str p.1))
  | _ => .error .typeError

/-- The batch loop of `on_message`: each element is parsed with
`_parse_chat` and the result—empty or not—is put on the queue; an
exception stops the loop (puts already made persist, later elements are
not reached) and is caught by the surrounding `except`. Returns the
queue puts and whether an exception was caught. -/
def putLoop : List PyValue → List PyValue × Bool
  | [] => ([], false)
  | m :: rest =>
    match parse_chat_v m with
    | .ok dta =>
      let p := putLoop rest
      (dta :: p.1, p.2)
    | .error _ => ([], true)

/-- The `{'ver': '3', 'cmd': ChatCommands.PONG}` reply to a server ping. -/
def pongMessage : PyValue :=
  .dict [("ver", .str "3"), ("cmd", .int ChatCommands.PONG)]

/-- The recent-history request sent on `CONNECTED` (50-message backfill). -/
def recentChatRequest (cid sid : PyValue) : PyValue :=
  .dict [("ver", .str "3"), ("svcid", .str "game"), ("cid", cid),
    ("cmd", .int ChatCommands.REQUEST_RECENT_CHAT), ("tid", .int 2), ("sid", sid),
    ("bdy", .dict [("recentMessageCount", .int 50)])]

/-- Result of one `on_message` invocation: control messages sent on the
socket, records put on the bridge queue, and whether the broad `except`
caught (and logged) an exception. -/
structure OnMessageResult where
  sends : List PyValue
  puts : List PyValue
  caughtError : Bool

/-- The body of `ChzzkChatDownloader.on_message` after `orjson.loads`. -/
def on_message_frame (cid : PyValue) (raw_msg : PyValue) : OnMessageResult :=
  match raw_msg with
  | .dict fs =>
    let cmd := chatGet fs "cmd"
    if pyEqInt cmd ChatCommands.CONNECTED then
      match pySubscr raw_msg "bdy" with
      | .error _ => ⟨[], [], true⟩
      | .ok bdy =>
        match pySubscr bdy "sid" with
        | .error _ => ⟨[], [], true⟩
        | .ok sid => ⟨[recentChatRequest cid sid], [], false⟩
    else if pyEqInt cmd ChatCommands.PING then ⟨[pongMessage], [], false⟩
    else if pyEqInt cmd ChatCommands.PONG then ⟨[], [], false⟩
    else if hasKey fs "bdy" = false then ⟨[], [], false⟩
    else
      match chatGet fs "bdy" with
      | .list xs =>
        let p := putLoop xs
        ⟨[], p.1, p.2⟩
      | .dict bfs =>
        match pyIter (pyGetD bfs "messageList" (.list [.dict bfs])) with
        | .error _ => ⟨[], [], true⟩
        | .ok msgs =>
          let p := putLoop msgs
          ⟨[], p.1, p.2⟩
      | _ => ⟨[], [], false⟩
  | _ => ⟨[], [], true⟩

/-- Models `ChzzkChatDownloader.on_message`: empty frames are ignored; decode
failures of the frame itself are caught and logged. -/
def on_message (cid : PyValue) (message : PyValue) : OnMessageResult :=
  if message.truthy = false then ⟨[], [], false⟩
  else
    match orjson_loads message with
    | .error _ => ⟨[], [], true⟩
    | .ok raw_msg => on_message_frame cid raw_msg

theorem putLoop_all_ok (msgs oks : List PyValue)
    (h : msgs.map parse_chat_v = oks.map Except.ok) :
    putLoop msgs = (oks, false) := by
  induction msgs generalizing oks with
  | nil =>
    cases oks with
    | nil => rfl
    | cons o os => simp at h
  | cons m rest ih =>
    cases oks with
    | nil => simp at h
    | cons o os =>
      simp only [List.map_cons, List.cons.injEq] at h
      simp [putLoop, h.1, ih os h.2]

theorem putLoop_stops_at_error (pre preOks : List PyValue) (bad : PyValue)
    (rest : List PyValue) (e : PyErr)
    (hpre : pre.map parse_chat_v = preOks.map Except.ok)
    (hbad : parse_chat_v bad = .error e) :
    putLoop (pre ++ bad :: rest) = (preOks, true) := by
  induction pre generalizing preOks with
  | nil =>
    cases preOks with
    | nil => simp [putLoop, hbad]
    | cons o os => simp at hpre
  | cons m pre' ih =>
    cases preOks with
    | nil => simp at hpre
    | cons o os =>
      simp only [List.map_cons, List.cons.injEq] at hpre
      simp [putLoop, hpre.1, ih os hpre.2]

/-- C4 counterexample: a payload frame whose single record is a system
message (`msgTypeCode = 30`) makes `_parse_chat` return the empty record,
and `on_message` still puts that empty record on the bridge queue — so the
output sequence can contain an idle-marker-shaped empty record that did
not come from a pull timeout, and empty normalization results are pushed. -/
theorem on_message_pushes_empty_record :
    (on_message (PyValue.str "cid")
      (PyValue.str "\x7b\"cmd\": 93101, \"bdy\": [\x7b\"msgTime\": 3, \"msgTypeCode\": 30, \"profile\": null\x7d]\x7d")).puts
      = [PyValue.dict []] := rfl

/-- C4 (amended): for a chat payload frame whose body is a batch of raw
records that all normalize successfully, `on_message` passes every record
to `_parse_chat` and puts every result on the bridge queue in order —
including empty records from dropped (system/incomplete/zero-time)
messages; nothing is filtered for non-emptiness. Empty records in the
output therefore arise both from parse-time drops and from pull timeouts. -/
theorem on_message_puts_every_result (cid msg : PyValue)
    (msgs oks : List PyValue)
    (htr : msg.truthy = true)
    (hload : orjson_loads msg =
      .ok (.dict [("cmd", .int 93101), ("bdy", .list msgs)]))
    (hok : msgs.map parse_chat_v = oks.map Except.ok) :
    (on_message cid msg).puts = oks ∧
    (on_message cid msg).caughtError = false := by
  have hfr : on_message cid msg =
      on_message_frame cid (.dict [("cmd", .int 93101), ("bdy", .list msgs)]) := by
    simp [on_message, htr, hload]
  rw [hfr]
  simp only [on_message_frame]
  simp [chatGet, pyGetD, lookupF, pyEqInt, hasKey, ChatCommands.CONNECTED,
    ChatCommands.PING, ChatCommands.PONG, putLoop_all_ok msgs oks hok]

/-- C4 witness: a concrete one-record frame whose record normalizes to a
nonempty record, delivered to the queue with no error. -/
theorem on_message_puts_every_result_witness :
    (on_message (PyValue.str "cid")
      (PyValue.str "\x7b\"cmd\": 93101, \"bdy\": [\x7b\"msgTime\": 2, \"profile\": null\x7d]\x7d")).puts =
      [PyValue.dict [("timestamp", PyValue.int 2000),
        ("message_id", PyValue.str "None-2"), ("message", PyValue.none),
        ("message_type", PyValue.str "unknown_message_None"),
        ("author", PyValue.dict [("display_name", PyValue.str ""),
          ("id", PyValue.none), ("subscription", PyValue.none)])]] := by
  exact (on_message_puts_every_result (PyValue.str "cid")
    (PyValue.str "\x7b\"cmd\": 93101, \"bdy\": [\x7b\"msgTime\": 2, \"profile\": null\x7d]\x7d")
    [PyValue.dict [("msgTime", PyValue.int 2), ("profile", PyValue.none)]]
    [PyValue.dict [("timestamp", PyValue.int 2000),
      ("message_id", PyValue.str "None-2"), ("message", PyValue.none),
      ("message_type", PyValue.str "unknown_message_None"),
      ("author", PyValue.dict [("display_name", PyValue.str ""),
        ("id", PyValue.none), ("subscription", PyValue.none)])]]
    rfl rfl rfl).1

/-- C9 counterexample: in a three-record batch whose middle record raises a
decode error (`extras` is the literal string `"null"`), `on_message`
delivers only the record before the failure — the error is caught and
logged at the frame level (not propagated), but the remaining record of
the batch is dropped, contradicting the claim that the remaining records
are still normalized and delivered. -/
theorem on_message_abandons_rest_of_batch :
    (on_message (PyValue.str "cid")
      (PyValue.str "\x7b\"cmd\": 93101, \"bdy\": [\x7b\"msgTime\": 1\x7d, \x7b\"msgTime\": 1, \"extras\": \"null\"\x7d, \x7b\"msgTime\": 1\x7d]\x7d")).puts
        = [PyValue.dict []] ∧
    (on_message (PyValue.str "cid")
      (PyValue.str "\x7b\"cmd\": 93101, \"bdy\": [\x7b\"msgTime\": 1\x7d, \x7b\"msgTime\": 1, \"extras\": \"null\"\x7d, \x7b\"msgTime\": 1\x7d]\x7d")).caughtError
        = true := ⟨rfl, rfl⟩

/-- C9 (amended): a decode error while normalizing one record of a batch is
caught by the frame-level handler — it is logged and never propagates out
of `on_message` — but it aborts the rest of that batch: records before the
failing one are delivered, records after it are skipped. -/
theorem on_message_batch_error_is_caught (cid msg : PyValue)
    (pre preOks : List PyValue) (bad : PyValue) (rest : List PyValue) (e : PyErr)
    (htr : msg.truthy = true)
    (hload : orjson_loads msg =
      .ok (.dict [("cmd", .int 93101), ("bdy", .list (pre ++ bad :: rest))]))
    (hpre : pre.map parse_chat_v = preOks.map Except.ok)
    (hbad : parse_chat_v bad = .error e) :
    (on_message cid msg).puts = preOks ∧
    (on_message cid msg).caughtError = true := by
  have hfr : on_message cid msg =
      on_message_frame cid (.dict [("cmd", .int 93101), ("bdy", .list (pre ++ bad :: rest))]) := by
    simp [on_message, htr, hload]
  rw [hfr]
  simp only [on_message_frame]
  simp [chatGet, pyGetD, lookupF, pyEqInt, hasKey, ChatCommands.CONNECTED,
    ChatCommands.PING, ChatCommands.PONG,
    putLoop_stops_at_error pre preOks bad rest e hpre hbad]

/-- C9 witness: the amended theorem applied to a concrete two-record batch
whose second record fails to decode. -/
theorem on_message_batch_error_is_caught_witness :
    (on_message (PyValue.str "cid")
      (PyValue.str "\x7b\"cmd\": 93101, \"bdy\": [\x7b\"msgTime\": 9\x7d, \x7b\"msgTime\": 9, \"extras\": \"null\"\x7d]\x7d")).puts
        = [PyValue.dict []] ∧
    (on_message (PyValue.str "cid")
      (PyValue.str "\x7b\"cmd\": 93101, \"bdy\": [\x7b\"msgTime\": 9\x7d, \x7b\"msgTime\": 9, \"extras\": \"null\"\x7d]\x7d")).caughtError
        = true := by
  exact on_message_batch_error_is_caught (PyValue.str "cid")
    (PyValue.str "\x7b\"cmd\": 93101, \"bdy\": [\x7b\"msgTime\": 9\x7d, \x7b\"msgTime\": 9, \"extras\": \"null\"\x7d]\x7d")
    [PyValue.dict [("msgTime", PyValue.int 9)]] [PyValue.dict []]
    (PyValue.dict [("msgTime", PyValue.int 9), ("extras", PyValue.str "null")])
    [] PyErr.attributeError rfl rfl rfl rfl

/-! ## Producer/consumer bridge -/

/-- The bridge queue contents (`queue.Queue` is FIFO): the producer's
`self.queue.put(data)` appends at the back. -/
def bridgePush (q : List PyValue) (r : PyValue) : List PyValue := q ++ [r]

/-- One iteration of the consumer loop
(`_get_chat_messages_by_channel_id` / soop `_get_chat_messages`):
`self.queue.get(timeout=...)` returns the front record; if the queue stays
empty for the whole wait window it raises `queue.Empty` and the generator
yields the idle marker `{}` instead. -/
def consumerStep (q : List PyValue) : PyValue × List PyValue :=
  match q with
  | [] => (.dict [], [])
  | x :: xs => (x, xs)

/-- Runs `n` sequential pulls of the consumer loop. -/
def consumerRun : Nat → List PyValue → List PyValue
  | 0, _ => []
  | n + 1, q =>
    let p := consumerStep q
    p.1 :: consumerRun n p.2

/-- C5: records pushed by the producer as `[A, B, C]` are returned by
sequential consumer pulls in the same order, and a pull issued when the
queue is empty (no record arriving within the receive timeout) returns the
idle marker `{}` instead of blocking; a pull on a nonempty queue returns
the front record. -/
theorem bridge_fifo_and_idle (A B C : PyValue) :
    consumerRun 3 (bridgePush (bridgePush (bridgePush [] A) B) C) = [A, B, C] ∧
    consumerStep [] = (PyValue.dict [], []) ∧
    (∀ x xs, consumerStep (x :: xs) = (x, xs)) :=
  ⟨rfl, rfl, fun _ _ => rfl⟩

/-! ## Retry loops of `get_channel_detail` and `get_chat_access_token` -/

/-- The fatal errors raised when the retry budget is exhausted. -/
inductive FatalErr where
  | userNotFound
  | siteError
deriving DecidableEq

/-- Outcome of one attempt of the `try` body (the HTTP fetch plus JSON
decode): success with a value, or a transient `JSONDecodeError` /
`RequestException` caught by the `except` clause. -/
inductive Attempt (α : Type) where
  | ok (a : α)
  | transient

/-- The `for i in range(max_retries)` loop: returns the first successful
attempt's value, or nothing if every attempt fails. -/
def retryFirstOk {α : Type} : List Nat → (Nat → Attempt α) → Option α
  | [], _ => Option.none
  | i :: rest, call =>
    match call i with
    | .ok a => some a
    | .transient => retryFirstOk rest call

/-- The number of attempts actually performed by the loop. -/
def attemptsMade {α : Type} : List Nat → (Nat → Attempt α) → Nat
  | [], _ => 0
  | i :: rest, call =>
    match call i with
    | .ok _ => 1
    | .transient => 1 + attemptsMade rest call

/-- Models `ChzzkChatDownloader.get_channel_detail`: retry loop over the
live-detail fetch; falling out of the loop raises `UserNotFound`. -/
def get_channel_detail {α : Type} (max_retries : Nat) (call : Nat → Attempt α) :
    Except FatalErr α :=
  match retryFirstOk (List.range max_retries) call with
  | some a => .ok a
  | Option.none => .error .userNotFound

/-- Models `ChzzkChatDownloader.get_chat_access_token`: same loop shape; falling
out of the loop raises `SiteError`. -/
def get_chat_access_token {α : Type} (max_retries : Nat) (call : Nat → Attempt α) :
    Except FatalErr α :=
  match retryFirstOk (List.range max_retries) call with
  | some a => .ok a
  | Option.none => .error .siteError

/-- C2: with `max_retries = N` and a call that fails with a transient error
on every attempt, the retry loops of `get_channel_detail` and
`get_chat_access_token` perform exactly `N` attempts and then surface an
exhausted-retries error to the caller (`UserNotFound` / `SiteError`); the
failure is raised, not swallowed. -/
theorem retry_exhaustion {α : Type} (N : Nat) (call : Nat → Attempt α)
    (hfail : ∀ i, i < N → call i = Attempt.transient) :
    get_channel_detail N call = .error .userNotFound ∧
    get_chat_access_token N call = .error .siteError ∧
    attemptsMade (List.range N) call = N := by
  have key : ∀ l : List Nat, (∀ i ∈ l, call i = .transient) →
      retryFirstOk l call = Option.none ∧ attemptsMade l call = l.length := by
    intro l
    induction l with
    | nil => exact fun _ => ⟨rfl, rfl⟩
    | cons a l ih =>
      intro hl
      have ha := hl a (List.mem_cons_self a l)
      obtain ⟨h1, h2⟩ := ih (fun i hi => hl i (List.mem_cons_of_mem a hi))
      refine ⟨by simp [retryFirstOk, ha, h1], ?_⟩
      simp only [attemptsMade, ha, h2, List.length_cons]
      omega
  obtain ⟨h1, h2⟩ := key (List.range N) (fun i hi => hfail i (List.mem_range.mp hi))
  rw [List.length_range] at h2
  exact ⟨by simp [get_channel_detail, h1], by simp [get_chat_access_token, h1], h2⟩

/-- C2 witness: with three always-failing attempts, both loops raise after
exactly three attempts. -/
theorem retry_exhaustion_witness :
    get_channel_detail 3 (fun _ => (Attempt.transient : Attempt Unit)) =
      .error .userNotFound ∧
    get_chat_access_token 3 (fun _ => (Attempt.transient : Attempt Unit)) =
      .error .siteError ∧
    attemptsMade (List.range 3) (fun _ => (Attempt.transient : Attempt Unit)) = 3 := by
  exact retry_exhaustion 3 (fun _ => Attempt.transient) (fun _ _ => rfl)

/-! ## `terminate` and `on_close` -/

/-- The downloader state read and written by `terminate`, `connect_websocket`
and `on_close`: the `terminated` flag, whether `self.websocket` and
`self.websocket_thread` are set, and (environment) whether the websocket
thread stops within the join timeout. -/
structure DState where
  terminated : Bool
  hasWebsocket : Bool
  hasThread : Bool
  threadStopsInTime : Bool

/-- Observable teardown/reconnect effects. -/
inductive WsEffect where
  | closeWs
  | joinThread
  | logThreadNotClosed
  | closeOldWs
  | openWs
deriving DecidableEq

/-- Models `ChzzkChatDownloader.terminate`: sets the `terminated` flag, closes the
websocket if set, joins the thread bounded by the pull timeout, and logs
an error (does not raise) if the thread is still alive afterwards. -/
def terminate (s : DState) : DState × List WsEffect :=
  ({ s with terminated := true },
   (if s.hasWebsocket then [WsEffect.closeWs] else [])
   ++ (if s.hasThread then
        [WsEffect.joinThread]
        ++ (if s.threadStopsInTime then [] else [WsEffect.logThreadNotClosed])
       else []))

/-- C6 counterexample: `terminate` has no re-entry guard, so calling it
twice performs the transport close and the thread join twice — not the
claimed single teardown sequence with one transport close. -/
theorem terminate_twice_closes_twice :
    ((terminate ⟨false, true, true, true⟩).2 ++
      (terminate (terminate ⟨false, true, true, true⟩).1).2) =
      [WsEffect.closeWs, WsEffect.joinThread, WsEffect.closeWs, WsEffect.joinThread] ∧
    List.countP (fun e => decide (e = WsEffect.closeWs))
      ((terminate ⟨false, true, true, true⟩).2 ++
        (terminate (terminate ⟨false, true, true, true⟩).1).2) = 2 := ⟨rfl, rfl⟩

/-- C6 (amended): `terminate` may be called twice without raising — the
second call leaves the state fixed (the `terminated` flag update is
idempotent) and repeats exactly the same effect sequence, so two calls
perform the transport close and the bounded join twice rather than once;
a websocket thread that does not stop within the pull timeout is reported
by an error log effect, never by an exception. -/
theorem terminate_flag_idempotent (s : DState) :
    (terminate s).1.terminated = true ∧
    (terminate (terminate s).1).1 = (terminate s).1 ∧
    (terminate (terminate s).1).2 = (terminate s).2 ∧
    (s.hasThread = true → s.threadStopsInTime = false →
      WsEffect.logThreadNotClosed ∈ (terminate s).2) := by
  refine ⟨rfl, rfl, rfl, ?_⟩
  intro h1 h2
  simp [terminate, h1, h2]

/-- C6 witness: the amended theorem at a concrete state whose thread does
not stop in time. -/
theorem terminate_flag_idempotent_witness :
    (terminate ⟨false, true, true, false⟩).1.terminated = true ∧
    WsEffect.logThreadNotClosed ∈ (terminate ⟨false, true, true, false⟩).2 := by
  have h := terminate_flag_idempotent ⟨false, true, true, false⟩
  exact ⟨h.1, h.2.2.2 rfl rfl⟩

/-- Environment for `connect_websocket` as called from `on_close`: the
outcome of `get_channel_detail` (`Option.none` models exhausted retries,
i.e. `UserNotFound`; otherwise `(is_live, live_id, title, chat_channel_id)`),
whether the access-token fetch succeeds, and whether the previous
websocket thread is still alive. -/
structure CloseEnv where
  detail : Option (Bool × PyValue × PyValue × PyValue)
  tokenOk : Bool
  oldThreadAlive : Bool

/-- Models `ChzzkChatDownloader.connect_websocket`: closes a still-alive previous
socket, re-resolves the channel detail, and — only when the source is
live — obtains a token, opens a new websocket and starts its thread.
Returns the updated state, the effects, and `is_live`. -/
def connect_websocket (s : DState) (env : CloseEnv) :
    Except FatalErr (DState × List WsEffect × Bool) :=
  let pre := if s.hasThread && env.oldThreadAlive then [WsEffect.closeOldWs] else []
  match env.detail with
  | Option.none => .error .userNotFound
  | some (is_live, _, _, _) =>
    if is_live then
      if env.tokenOk then
        .ok ({ s with hasWebsocket := true, hasThread := true },
             pre ++ [WsEffect.openWs], true)
      else .error .siteError
    else .ok (s, pre, false)

/-- Models `ChzzkChatDownloader.on_close`: when the closure was requested by the
consumer (`terminated` set) nothing happens; otherwise the downloader
re-resolves liveness via `connect_websocket` (which reconnects when the
source is still live) and calls `terminate` when the source is no longer
live. -/
def on_close (s : DState) (env : CloseEnv) :
    Except FatalErr (DState × List WsEffect) :=
  if s.terminated then .ok (s, [])
  else
    match connect_websocket s env with
    | .error e => .error e
    | .ok (s', es, is_live) =>
      if is_live then .ok (s', es)
      else
        let p := terminate s'
        .ok (p.1, es ++ p.2)

/-- C8: a transport closure not initiated by the consumer (`terminated`
unset) makes the state machine re-resolve liveness: if the source is no
longer live it terminates without opening a new connection, and if it is
still live it reconnects (opens a new websocket) without terminating;
after a consumer-initiated termination (`terminated` set), a closure
triggers no reconnection attempt at all. -/
theorem on_close_reconnect_policy (s : DState) (env : CloseEnv) :
    (s.terminated = true → on_close s env = .ok (s, [])) ∧
    (∀ a b c, s.terminated = false → env.detail = some (false, a, b, c) →
      ∃ s' es, on_close s env = .ok (s', es) ∧ s'.terminated = true ∧
        WsEffect.openWs ∉ es) ∧
    (∀ a b c, s.terminated = false → env.detail = some (true, a, b, c) →
      env.tokenOk = true →
      ∃ s' es, on_close s env = .ok (s', es) ∧ WsEffect.openWs ∈ es ∧
        s'.terminated = false) := by
  refine ⟨?_, ?_, ?_⟩
  · intro h
    simp [on_close, h]
  · intro a b c h hd
    refine ⟨(terminate s).1, (if s.hasThread && env.oldThreadAlive
        then [WsEffect.closeOldWs] else []) ++ (terminate s).2, ?_, rfl, ?_⟩
    · simp [on_close, h, connect_websocket, hd]
    · intro hmem
      rcases List.mem_append.mp hmem with h1 | h1
      · by_cases hc : s.hasThread && env.oldThreadAlive
        · rw [if_pos hc] at h1
          exact absurd h1 (by decide)
        · rw [if_neg hc] at h1
          exact absurd h1 (by decide)
      · rcases s with ⟨st, sw, sth, sst⟩
        revert h1
        cases st <;> cases sw <;> cases sth <;> cases sst <;> decide
  · intro a b c h hd htok
    refine ⟨{ s with hasWebsocket := true, hasThread := true },
      (if s.hasThread && env.oldThreadAlive then [WsEffect.closeOldWs] else [])
        ++ [WsEffect.openWs], ?_, ?_, h⟩
    · simp [on_close, h, connect_websocket, hd, htok]
    · simp

/-- C8 witness: the policy theorem at concrete states — a consumer-initiated
closure does nothing, a no-longer-live source terminates, a still-live
source reconnects. -/
theorem on_close_reconnect_policy_witness :
    on_close ⟨true, true, true, true⟩ ⟨some (true, PyValue.none, PyValue.none,
      PyValue.none), true, true⟩ = .ok (⟨true, true, true, true⟩, []) ∧
    (∃ s' es, on_close ⟨false, true, true, true⟩ ⟨some (false, PyValue.none,
      PyValue.none, PyValue.none), true, true⟩ = .ok (s', es) ∧
      s'.terminated = true ∧ WsEffect.openWs ∉ es) ∧
    (∃ s' es, on_close ⟨false, true, true, true⟩ ⟨some (true, PyValue.none,
      PyValue.none, PyValue.none), true, true⟩ = .ok (s', es) ∧
      WsEffect.openWs ∈ es ∧ s'.terminated = false) := by
  refine ⟨(on_close_reconnect_policy ⟨true, true, true, true⟩ _).1 rfl, ?_, ?_⟩
  · exact (on_close_reconnect_policy ⟨false, true, true, true⟩ _).2.1
      PyValue.none PyValue.none PyValue.none rfl rfl
  · exact (on_close_reconnect_policy ⟨false, true, true, true⟩ _).2.2
      PyValue.none PyValue.none PyValue.none rfl rfl rfl

/-! ## VOD pagination (`_get_chat_messages_by_vod_id`) -/

/-- Errors escaping the VOD pagination generator: `UnexpectedError` for a
non-200 response code, or a Python exception from `_parse_chat`
propagating out (no handler catches it there). -/
inductive VodErr where
  | unexpectedError
  | pyError (e : PyErr)

/-- The per-page yields: each chat of `content['videoChats']` is passed to
`_parse_chat` and the result is yielded (empty or not); a `_parse_chat`
exception propagates.  (Records yielded before a mid-page exception are
collapsed into the error; no statement depends on them.) -/
def yieldAll : List PyValue → Except PyErr (List PyValue)
  | [] => .ok []
  | c :: rest =>
    match parse_chat_v c with
    | .error e => .error e
    | .ok dta =>
      match yieldAll rest with
      | .error e => .error e
      | .ok ds => .ok (dta :: ds)

/-- One iteration of the VOD page loop: fetch the page at the cursor,
require `code == 200`, read `nextPlayerMessageTime` and `videoChats` from
`content` (with `.get` semantics), and yield each parsed record. `fetch`
abstracts the successful `_session_get_json` response as a dict. -/
def vodStep (fetch : PyValue → List (String × PyValue)) (cursor : PyValue) :
    Except VodErr (List PyValue × PyValue) :=
  let resp := fetch cursor
  if pyEqInt (chatGet resp "code") 200 = false then .error .unexpectedError
  else
    let content := pyGetD resp "content" (.dict [])
    match pyGetAttr content "nextPlayerMessageTime" PyValue.none with
    | .error e => .error (.pyError e)
    | .ok next =>
      match pyGetAttr content "videoChats" (.list []) with
      | .error e => .error (.pyError e)
      | .ok chats =>
        match pyIter chats with
        | .error e => .error (.pyError e)
        | .ok recs =>
          match yieldAll recs with
          | .error e => .error (.pyError e)
          | .ok outs => .ok (outs, next)

/-- Models `_get_chat_messages_by_vod_id`: starting from cursor `0`, loop
`while next_player_message_time is not None`, fetching each page and
following its cursor.  Returns the yielded records and the list of cursors
fetched; the fuel bounds the number of iterations (every statement proved
supplies enough fuel). -/
def vodRun (fetch : PyValue → List (String × PyValue)) :
    Nat → PyValue → Except VodErr (List PyValue × List PyValue)
  | 0, _ => .ok ([], [])
  | n + 1, cursor =>
    match cursor with
    | PyValue.none => .ok ([], [])
    | c =>
      match vodStep fetch c with
      | .error e => .error e
      | .ok (outs, next) =>
        match vodRun fetch n next with
        | .error e => .error e
        | .ok p => .ok (outs ++ p.1, c :: p.2)

theorem yieldAll_all_ok (recs outs : List PyValue)
    (h : recs.map parse_chat_v = outs.map Except.ok) :
    yieldAll recs = .ok outs := by
  induction recs generalizing outs with
  | nil =>
    cases outs with
    | nil => rfl
    | cons o os => simp at h
  | cons r rest ih =>
    cases outs with
    | nil => simp at h
    | cons o os =>
      simp only [List.map_cons, List.cons.injEq] at h
      simp [yieldAll, h.1, ih os h.2]

theorem vodRun_succ_not_none (fetch : PyValue → List (String × PyValue))
    (n : Nat) (cursor : PyValue) (hc : cursor ≠ PyValue.none) :
    vodRun fetch (n + 1) cursor =
      match vodStep fetch cursor with
      | .error e => .error e
      | .ok (outs, next) =>
        match vodRun fetch n next with
        | .error e => .error e
        | .ok p => .ok (outs ++ p.1, cursor :: p.2) := by
  cases cursor <;> first
    | exact absurd rfl hc
    | rfl

/-- C7: in the archived-source pagination loop, a `200` page whose content
carries no next cursor (`nextPlayerMessageTime` absent or null) ends the
stream — every record of that final page is passed through `_parse_chat`
and yielded, the loop terminates cleanly, and exactly one page (the
current cursor) was fetched; while a next cursor `k` is present, the loop
fetches the next page using `k`. -/
theorem vod_pagination (fetch : PyValue → List (String × PyValue))
    (c0 : PyValue) (n : Nat) (outs recs : List PyValue) (nextv : PyValue)
    (hc0 : c0 ≠ PyValue.none)
    (hcode : pyEqInt (chatGet (fetch c0) "code") 200 = true)
    (hnext : pyGetAttr (pyGetD (fetch c0) "content" (.dict []))
      "nextPlayerMessageTime" PyValue.none = .ok nextv)
    (hchats : pyGetAttr (pyGetD (fetch c0) "content" (.dict []))
      "videoChats" (.list []) = .ok (.list recs))
    (hyield : recs.map parse_chat_v = outs.map Except.ok) :
    (nextv = PyValue.none →
      vodRun fetch (n + 2) c0 = .ok (outs, [c0])) ∧
    (∀ k : Int, nextv = PyValue.int k →
      vodRun fetch (n + 2) c0 =
        (match vodRun fetch (n + 1) (PyValue.int k) with
         | .error e => .error e
         | .ok p => .ok (outs ++ p.1, c0 :: p.2))) := by
  have hstep : vodStep fetch c0 = .ok (outs, nextv) := by
    simp only [vodStep, hnext, hchats, pyIter, yieldAll_all_ok recs outs hyield,
      hcode]
    simp
  constructor
  · intro h0
    rw [vodRun_succ_not_none fetch (n + 1) c0 hc0, hstep, h0]
    simp [show vodRun fetch (n + 1) PyValue.none = .ok ([], []) from rfl]
  · intro k h0
    rw [vodRun_succ_not_none fetch (n + 1) c0 hc0, hstep, h0]

/-- C7 witness: a single `200` page with one record and no next cursor
yields exactly that record's normalization and fetches exactly one page. -/
theorem vod_pagination_witness :
    vodRun (fun _ => [("code", PyValue.int 200), ("content", PyValue.dict
        [("videoChats", PyValue.list [PyValue.dict [("msgTime", PyValue.int 1)]])])])
      2 (PyValue.int 0) = .ok ([PyValue.dict []], [PyValue.int 0]) := by
  exact (vod_pagination
    (fun _ => [("code", PyValue.int 200), ("content", PyValue.dict
      [("videoChats", PyValue.list [PyValue.dict [("msgTime", PyValue.int 1)]])])])
    (PyValue.int 0) 0 [PyValue.dict []]
    [PyValue.dict [("msgTime", PyValue.int 1)]] PyValue.none
    (fun h => PyValue.noConfusion h) rfl rfl rfl rfl).1 rfl
